import Mathlib

/-!
Shallow embedding of the command-proxy core of pynrfjprog, file
src/pynrfjprog/MultiAPI.py, for checking the natural-language
specification against the code.

Modelling conventions:
* Python values carried through the proxy are modelled by the small
  inductive type Value; the Python value None is modelled by the
  Option layer (none).
* Python exceptions are modelled by PyExc, a pair of a kind (the
  exception class name) and a message.  Raising code is modelled with
  Except PyExc.
* The Target API (file API.py, an external collaborator of the core)
  is modelled from the spec as a partial map from operation names to
  invocable members; its invocable members correspond one to one to
  the permitted remote operations.
* The two multiprocessing queues are modelled by their put histories
  (cmdTrace, ackTrace) kept in the facade state; channel traffic is
  visible as growth of these histories.  The worker is live, so a
  blocking get after a put returns the acknowledgement the worker
  built for that command; this makes the put/get pair of one call a
  pure function of the command (runnerStep below).
* print output is modelled by the stdout history in the facade state.
* The threading.Lock is modelled by a Bool saying whether the lock is
  currently held.  An acquire with a timeout succeeds exactly when
  the lock is free, modelling a contending holder that does not
  release it within the bound.
-/

/-- A Python value carried through the proxy (arguments and results). -/
inductive Value where
  | vInt (n : Int)
  | vStr (s : String)
  | vBool (b : Bool)
deriving DecidableEq

/-- A Python exception: class name (kind) and message. -/
structure PyExc where
  kind : String
  msg : String
deriving DecidableEq

/-- An invocable member of the Target API: takes positional and keyword
arguments and returns a value (possibly the Python None, i.e. Option.none)
or raises. -/
def ApiFn : Type := List Value → List (String × Value) → Except PyExc (Option Value)

/-- The Target API, modelled from the spec: a partial map from operation
names to invocable members (the exposed set is exactly the domain). -/
def Api : Type := String → Option ApiFn

/-- Embedding of class _Command (MultiAPI.py lines 27-31): operation name
with positional and keyword arguments. -/
structure Command where
  cmd : String
  args : List Value
  kwargs : List (String × Value)
deriving DecidableEq

/-- Embedding of class _CommandAck (MultiAPI.py lines 34-38). -/
structure CommandAck where
  exception : Option PyExc
  stacktrace : String
  result : Option Value
deriving DecidableEq

/-- Acknowledgement built by the worker for a raised exception
(_CommandAck(exception=e, stacktrace=traceback.format_exc())). -/
def CommandAck.mkError (e : PyExc) (trace : String) : CommandAck :=
  ⟨some e, trace, none⟩

/-- Acknowledgement built by the worker for a normal return
(_CommandAck(result=res)); the defaults give exception None and an empty
stacktrace. -/
def CommandAck.mkResult (r : Option Value) : CommandAck :=
  ⟨none, "", r⟩

/-- Model of traceback.format_exc for the exception currently being
handled: a nonempty diagnostic text naming the exception kind and message. -/
def traceback.format_exc (e : PyExc) : String :=
  "Traceback (most recent call last):\n" ++ e.kind ++ ": " ++ e.msg

/-- The threading.Lock of the facade: whether it is currently held. -/
structure Lock where
  held : Bool
deriving DecidableEq

/-- lock.acquire(timeout=t): succeeds exactly when the lock is free; a
lock held by a contending holder for the whole bounded wait yields False. -/
def Lock.acquire (l : Lock) (timeout : Nat) : Lock × Bool :=
  if l.held then (l, false) else (⟨true⟩, true)

/-- lock.release(). -/
def Lock.release (l : Lock) : Lock := ⟨false⟩

/-- Embedding of the generator context manager acquire_with_timeout
(MultiAPI.py lines 41-47) combined with the body of a with statement.
The body receives the acquisition result and may update a state of type
s while returning normally (Except.ok) or raising (Except.error).
Per the contextlib semantics of a generator based context manager, an
exception raised by the body is thrown into the generator at the yield;
the generator has no try/finally around the yield, so on that path the
code after the yield, including the conditional lock.release(), never
runs and the exception propagates. -/
def acquire_with_timeout {s a : Type} (lock : Lock) (timeout : Nat)
    (body : Bool → s → s × Except PyExc a) (st : s) :
    Lock × s × Except PyExc a :=
  let p := lock.acquire timeout
  match body p.2 st with
  | (st1, Except.ok v) =>
      ((if p.2 then p.1.release else p.1), st1, Except.ok v)
  | (st1, Except.error e) =>
      (p.1, st1, Except.error e)

/-- The state of one MultiAPI facade instance (class MultiAPI).  The two
queues are represented by their put histories; stdout records printed
diagnostic traces. -/
structure MultiAPI where
  terminated : Bool
  exec_lock : Lock
  runnerAlive : Bool
  queuesOpen : Bool
  cmdTrace : List Command
  ackTrace : List CommandAck
  stdout : List String
deriving DecidableEq

/-- Facade state right after __init__ (MultiAPI.py lines 61-82): runner
process started, queues open, lock free, not terminated. -/
def MultiAPI.init : MultiAPI :=
  { terminated := false
    exec_lock := ⟨false⟩
    runnerAlive := true
    queuesOpen := true
    cmdTrace := []
    ackTrace := []
    stdout := [] }

/-- Embedding of MultiAPI.is_alive (lines 90-95): pure read of the
termination flag. -/
def MultiAPI.is_alive (st : MultiAPI) : Bool :=
  !st.terminated

/-- Embedding of MultiAPI.terminate (lines 97-112): when alive, stop the
runner process, close both queues, join, then set the termination flag;
otherwise do nothing. -/
def MultiAPI.terminate (st : MultiAPI) : MultiAPI :=
  if st.is_alive then
    { st with runnerAlive := false, queuesOpen := false, terminated := true }
  else
    st

/-- Outcome of one command attempted by a resolved member: builds the
acknowledgement the worker puts on the ack queue (lines 159-164). -/
def dispatch (f : ApiFn) (c : Command) : CommandAck :=
  match f c.args c.kwargs with
  | Except.ok res => CommandAck.mkResult res
  | Except.error e => CommandAck.mkError e (traceback.format_exc e)

/-- One iteration of the worker loop MultiAPI._runner (lines 157-164):
look the command name up in the member dictionary (a failed lookup raises
KeyError inside the try), invoke it, and build the acknowledgement for
either outcome. -/
def runnerStep (api : Api) (c : Command) : CommandAck :=
  match api c.cmd with
  | none =>
      CommandAck.mkError ⟨"KeyError", c.cmd⟩
        (traceback.format_exc ⟨"KeyError", c.cmd⟩)
  | some f => dispatch f c

/-- The worker loop MultiAPI._runner over a finite prefix of the command
stream: one acknowledgement per command, in order, never exiting on an
operation failure. -/
def MultiAPI.runner (api : Api) : List Command → List CommandAck
  | [] => []
  | c :: cs => runnerStep api c :: MultiAPI.runner api cs

/-- Error raised by _execute when the facade is terminated (line 128):
API.APIError("Runner process terminated, API is unavailable."). -/
def unavailableError : PyExc :=
  ⟨"APIError", "Runner process terminated, API is unavailable."⟩

/-- Error raised by _execute when the lock is not acquired within the
bound (line 135): TimeoutError("CmdQueue is full and was not cleared in
10 seconds!"). -/
def timeoutError : PyExc :=
  ⟨"TimeoutError", "CmdQueue is full and was not cleared in 10 seconds!"⟩

/-- A single quote character (used in the Python AttributeError message). -/
def squote : String := ⟨[Char.ofNat 39]⟩

/-- Error raised by __getattr__ for an unknown attribute (line 88). -/
def attributeError (name : String) : PyExc :=
  ⟨"AttributeError",
    squote ++ "MultiAPI" ++ squote ++ " object has no attribute " ++
      squote ++ name ++ squote⟩

/-- Embedding of MultiAPI._execute (lines 114-141).  Returns the updated
facade state and either the result value of the remote operation (ok,
possibly None) or the raised exception (error).
Liveness is checked first (lines 127-128, before any channel traffic).
The lock is then acquired through acquire_with_timeout with a bound of
10; inside the with body, on success the command envelope is put on the
command queue and the acknowledgement is fetched from the live worker
(runnerStep), and on failure TimeoutError is raised inside the body.
After the with block, an acknowledgement carrying an exception has its
stacktrace printed and its exception re-raised; otherwise ack.result is
returned (None when the operation returned None). -/
def MultiAPI.execute (api : Api) (st : MultiAPI) (func_name : String)
    (args : List Value) (kwargs : List (String × Value)) :
    MultiAPI × Except PyExc (Option Value) :=
  if !st.is_alive then
    (st, Except.error unavailableError)
  else
    match acquire_with_timeout st.exec_lock 10
        (fun acquired tr =>
          if acquired then
            ((tr.1 ++ [⟨func_name, args, kwargs⟩],
              tr.2 ++ [runnerStep api ⟨func_name, args, kwargs⟩]),
             Except.ok (runnerStep api ⟨func_name, args, kwargs⟩))
          else
            (tr, Except.error timeoutError))
        (st.cmdTrace, st.ackTrace) with
    | (lk, tr, Except.error e) =>
        ({ st with exec_lock := lk, cmdTrace := tr.1, ackTrace := tr.2 },
         Except.error e)
    | (lk, tr, Except.ok ack) =>
        match ack.exception with
        | some e =>
            ({ st with
                exec_lock := lk
                cmdTrace := tr.1
                ackTrace := tr.2
                stdout := st.stdout ++ [ack.stacktrace] },
             Except.error e)
        | none =>
            ({ st with exec_lock := lk, cmdTrace := tr.1, ackTrace := tr.2 },
             Except.ok ack.result)

/-- The callable returned by __getattr__ for a valid operation name: the
lambda that forwards to self._execute with the captured name (line 86). -/
structure BoundCall where
  name : String
deriving DecidableEq

/-- Embedding of MultiAPI.__getattr__ (lines 84-88): if the Target API
type defines the name, return the forwarding callable; otherwise raise
AttributeError.  No state is read or written beyond the name lookup. -/
def MultiAPI.getattr (api : Api) (st : MultiAPI) (name : String) :
    MultiAPI × Except PyExc BoundCall :=
  if (api name).isSome then (st, Except.ok ⟨name⟩)
  else (st, Except.error (attributeError name))

/-- Invoking the callable returned by __getattr__: exactly a call of
_execute with the captured name. -/
def BoundCall.call (api : Api) (b : BoundCall) (st : MultiAPI)
    (args : List Value) (kwargs : List (String × Value)) :
    MultiAPI × Except PyExc (Option Value) :=
  MultiAPI.execute api st b.name args kwargs

/-- One request submitted through the facade: operation name with
positional and keyword arguments. -/
structure Request where
  name : String
  args : List Value
  kwargs : List (String × Value)

/-- The command envelope _execute builds for a request. -/
def Request.toCommand (r : Request) : Command :=
  ⟨r.name, r.args, r.kwargs⟩

/-- A sequence of _execute calls from a single thread: each call runs to
completion before the next is issued.  Returns the final facade state and
the outcomes in order. -/
def MultiAPI.executeSeq (api : Api) (st : MultiAPI) :
    List Request → MultiAPI × List (Except PyExc (Option Value))
  | [] => (st, [])
  | r :: rs =>
      let p := MultiAPI.execute api st r.name r.args r.kwargs
      let q := MultiAPI.executeSeq api p.1 rs
      (q.1, p.2 :: q.2)

/-- The public operations of the facade, for stating invariants over
every facade operation. -/
inductive FacadeOp where
  | isAliveOp
  | terminateOp
  | getattrOp (name : String)
  | executeOp (name : String) (args : List Value) (kwargs : List (String × Value))

/-- Effect of one facade operation on the facade state. -/
def FacadeOp.apply (api : Api) (op : FacadeOp) (st : MultiAPI) : MultiAPI :=
  match op with
  | .isAliveOp => st
  | .terminateOp => st.terminate
  | .getattrOp n => (MultiAPI.getattr api st n).1
  | .executeOp n a k => (MultiAPI.execute api st n a k).1

/-- The ZeroDivisionError used by the concrete sample Target API. -/
def zde : PyExc := ⟨"ZeroDivisionError", "division by zero"⟩

/-- Sample member: returns the integer 42. -/
def readFn : ApiFn := fun _ _ => Except.ok (some (Value.vInt 42))

/-- Sample member: raises ZeroDivisionError. -/
def divideFn : ApiFn := fun _ _ => Except.error zde

/-- Sample member: returns None (void operation). -/
def openFn : ApiFn := fun _ _ => Except.ok none

/-- A concrete sample Target API used to exercise the theorems: exposes
read, divide and open only. -/
def apiW : Api := fun s =>
  if s = "read" then some readFn
  else if s = "divide" then some divideFn
  else if s = "open" then some openFn
  else none

/-! Helper lemmas shared by the claim theorems. -/

/-- The worker loop is a map of runnerStep over the command stream. -/
lemma runner_eq_map (api : Api) (l : List Command) :
    MultiAPI.runner api l = l.map (runnerStep api) := by
  induction l with
  | nil => rfl
  | cons c cs ih => simp [MultiAPI.runner, ih]

/-- On a terminated facade, _execute raises the unavailable error before
touching the lock or the queues: the state is returned unchanged. -/
lemma execute_dead (api : Api) (st : MultiAPI) (n : String)
    (a : List Value) (k : List (String × Value)) (h : st.terminated = true) :
    MultiAPI.execute api st n a k = (st, Except.error unavailableError) := by
  unfold MultiAPI.execute MultiAPI.is_alive
  simp [h]

/-- terminate always leaves the termination flag set. -/
lemma terminate_terminated (st : MultiAPI) :
    (MultiAPI.terminate st).terminated = true := by
  unfold MultiAPI.terminate MultiAPI.is_alive
  cases h : st.terminated <;> simp [h]

/-- On a live facade whose lock is free, _execute appends exactly one
command envelope and one acknowledgement to the queue histories, stays
live, and leaves the lock free (released on the way out). -/
lemma execute_fields (api : Api) (st : MultiAPI) (n : String)
    (a : List Value) (k : List (String × Value))
    (h1 : st.terminated = false) (h2 : st.exec_lock.held = false) :
    (MultiAPI.execute api st n a k).1.cmdTrace = st.cmdTrace ++ [⟨n, a, k⟩] ∧
    (MultiAPI.execute api st n a k).1.ackTrace
        = st.ackTrace ++ [runnerStep api ⟨n, a, k⟩] ∧
    (MultiAPI.execute api st n a k).1.terminated = false ∧
    (MultiAPI.execute api st n a k).1.exec_lock.held = false := by
  unfold MultiAPI.execute acquire_with_timeout Lock.acquire MultiAPI.is_alive
  simp [h1, h2]
  cases hx : (runnerStep api ⟨n, a, k⟩).exception <;>
    simp [hx, h1, Lock.release]

/-- No branch of _execute changes the termination flag. -/
lemma execute_preserves_terminated (api : Api) (st : MultiAPI) (n : String)
    (a : List Value) (k : List (String × Value)) :
    (MultiAPI.execute api st n a k).1.terminated = st.terminated := by
  unfold MultiAPI.execute acquire_with_timeout Lock.acquire MultiAPI.is_alive
  cases h : st.terminated
  · simp [h]
    cases hl : st.exec_lock.held
    · simp [hl]
      cases hx : (runnerStep api ⟨n, a, k⟩).exception <;> simp [hx]
    · simp [hl]
  · simp [h]

/-- __getattr__ never changes the facade state. -/
lemma getattr_state (api : Api) (st : MultiAPI) (n : String) :
    (MultiAPI.getattr api st n).1 = st := by
  unfold MultiAPI.getattr
  split <;> rfl

/-! Claim theorems. -/

/-- C1: the claim says the bounded-wait mutex guard releases the lock on
every exit path of the guarded scope when acquisition succeeded,
including an exception raised inside the body.  The code does not: the
generator context manager has no try/finally around its yield, so when
the body raises, the release after the yield is skipped.  Concretely,
starting from a free lock, acquisition succeeds, the body raises, and
afterward the lock is still held while the exception propagates. -/
theorem C1_lock_leaked_on_body_exception :
    Lock.acquire ⟨false⟩ 10 = (⟨true⟩, true) ∧
    acquire_with_timeout (Lock.mk false) 10
        (fun (_ : Bool) (u : Unit) => (u, (Except.error zde : Except PyExc Unit))) ()
      = (⟨true⟩, (), Except.error zde) :=
  ⟨rfl, rfl⟩

/-- C3: every forwarding call made after terminate() has completed fails
with the APIError saying the proxy is unavailable, and the state is
returned untouched: no command envelope is enqueued (cmdTrace unchanged),
no acknowledgement is fetched (ackTrace unchanged), and the mutex is not
acquired (exec_lock unchanged), since the whole state is unchanged. -/
theorem C3_unavailable_after_terminate (api : Api) (st : MultiAPI)
    (n : String) (a : List Value) (k : List (String × Value)) :
    MultiAPI.execute api (MultiAPI.terminate st) n a k
        = (MultiAPI.terminate st, Except.error unavailableError) ∧
    unavailableError.kind = "APIError" :=
  ⟨execute_dead api (MultiAPI.terminate st) n a k (terminate_terminated st), rfl⟩

/-- C4: on a live facade whose mutex is held by a contender for the whole
10 unit bound, _execute fails with the TimeoutError and returns the state
exactly as it found it: no command envelope enqueued, no acknowledgement
awaited, and the lock neither acquired nor released by this call. -/
theorem C4_timeout_no_traffic (api : Api) (st : MultiAPI) (n : String)
    (a : List Value) (k : List (String × Value))
    (h1 : st.terminated = false) (h2 : st.exec_lock.held = true) :
    MultiAPI.execute api st n a k = (st, Except.error timeoutError) ∧
    timeoutError.kind = "TimeoutError" := by
  refine ⟨?_, rfl⟩
  obtain ⟨t, ⟨lh⟩, ra, qo, ct, ak, sd⟩ := st
  simp only at h1 h2
  subst h1
  subst h2
  unfold MultiAPI.execute acquire_with_timeout Lock.acquire MultiAPI.is_alive
  simp

/-- Witness for C4 at a concrete input: the freshly initialized facade
with its lock held by a contender. -/
theorem C4_timeout_no_traffic_witness :
    MultiAPI.execute apiW { MultiAPI.init with exec_lock := ⟨true⟩ } "read" [] []
        = ({ MultiAPI.init with exec_lock := ⟨true⟩ }, Except.error timeoutError) :=
  (C4_timeout_no_traffic apiW { MultiAPI.init with exec_lock := ⟨true⟩ }
    "read" [] [] rfl rfl).1

/-- C7: terminate is idempotent: a second call is a no-op (the guard on
is_alive makes it return the state unchanged), the end state after one or
more calls is the same, with is_alive false; terminate and is_alive are
total functions of the state, hence remain callable after termination. -/
theorem C7_terminate_idempotent (st : MultiAPI) :
    MultiAPI.terminate (MultiAPI.terminate st) = MultiAPI.terminate st ∧
    MultiAPI.is_alive (MultiAPI.terminate st) = false := by
  unfold MultiAPI.terminate MultiAPI.is_alive
  cases h : st.terminated <;> simp [h]

/-- C9: the termination flag is monotonic.  It is false at construction;
terminate always leaves it true; every facade operation preserves it once
true (it never resets); and no facade operation other than terminate
changes it at all. -/
theorem C9_liveness_flag_monotonic :
    MultiAPI.init.terminated = false ∧
    (∀ st : MultiAPI, (MultiAPI.terminate st).terminated = true) ∧
    (∀ (api : Api) (op : FacadeOp) (st : MultiAPI),
        st.terminated = true → (FacadeOp.apply api op st).terminated = true) ∧
    (∀ (api : Api) (op : FacadeOp) (st : MultiAPI),
        op ≠ FacadeOp.terminateOp →
          (FacadeOp.apply api op st).terminated = st.terminated) := by
  refine ⟨rfl, terminate_terminated, ?_, ?_⟩
  · intro api op st h
    cases op with
    | isAliveOp => exact h
    | terminateOp => exact terminate_terminated st
    | getattrOp n => rw [FacadeOp.apply, getattr_state]; exact h
    | executeOp n a k =>
        rw [FacadeOp.apply, execute_preserves_terminated]; exact h
  · intro api op st hop
    cases op with
    | isAliveOp => rfl
    | terminateOp => exact absurd rfl hop
    | getattrOp n => rw [FacadeOp.apply, getattr_state]
    | executeOp n a k => exact execute_preserves_terminated api st n a k

/-- Witness for C9 at concrete inputs: a terminated facade stays
terminated under a non-terminate operation, and a non-terminate operation
on a fresh facade leaves the flag what it was. -/
theorem C9_liveness_flag_monotonic_witness :
    (FacadeOp.apply apiW FacadeOp.isAliveOp (MultiAPI.terminate MultiAPI.init)).terminated
        = true ∧
    (FacadeOp.apply apiW (FacadeOp.getattrOp "read") MultiAPI.init).terminated
        = MultiAPI.init.terminated :=
  ⟨C9_liveness_flag_monotonic.2.2.1 apiW FacadeOp.isAliveOp
      (MultiAPI.terminate MultiAPI.init) rfl,
   C9_liveness_flag_monotonic.2.2.2 apiW (FacadeOp.getattrOp "read")
      MultiAPI.init (by simp)⟩

/-- C2: when the remote operation raises an error of kind K with message
M in the worker, the caller of _execute observes exactly that error
value re-raised (same kind, same message), and the diagnostic trace the
worker captured in the acknowledgement is printed (appended to stdout)
rather than being part of the raised error. -/
theorem C2_remote_error_roundtrip (api : Api) (st : MultiAPI) (n : String)
    (a : List Value) (k : List (String × Value)) (f : ApiFn) (e : PyExc)
    (h1 : st.terminated = false) (h2 : st.exec_lock.held = false)
    (hf : api n = some f) (he : f a k = Except.error e) :
    (MultiAPI.execute api st n a k).2 = Except.error e ∧
    (MultiAPI.execute api st n a k).1.stdout
        = st.stdout ++ [traceback.format_exc e] := by
  have hr : runnerStep api ⟨n, a, k⟩
      = CommandAck.mkError e (traceback.format_exc e) := by
    unfold runnerStep dispatch
    simp [hf, he]
  unfold MultiAPI.execute acquire_with_timeout Lock.acquire MultiAPI.is_alive
  simp [h1, h2, hr, CommandAck.mkError]

/-- Witness for C2 at a concrete input: the sample divide operation
raising ZeroDivisionError on the fresh facade. -/
theorem C2_remote_error_roundtrip_witness :
    (MultiAPI.execute apiW MultiAPI.init "divide" [Value.vInt 10, Value.vInt 0] []).2
        = Except.error zde ∧
    (MultiAPI.execute apiW MultiAPI.init "divide" [Value.vInt 10, Value.vInt 0] []).1.stdout
        = [traceback.format_exc zde] := by
  have h := C2_remote_error_roundtrip apiW MultiAPI.init "divide"
    [Value.vInt 10, Value.vInt 0] [] divideFn zde rfl rfl rfl rfl
  exact ⟨h.1, by rw [h.2]; rfl⟩

/-- C5: a name outside the exposed set of the Target API fails attribute
resolution with the AttributeError, and the state is returned unchanged
(no channel traffic, this happens on the calling side); conversely a name
that passes resolution is resolvable by the worker, so the worker-side
lookup-failure branch of runnerStep (the KeyError acknowledgement) is
unreachable for it: its runnerStep outcome is the dispatch of the
resolved member. -/
theorem C5_unknown_operation_local (api : Api) (st : MultiAPI)
    (name : String) (a : List Value) (k : List (String × Value)) :
    ((api name).isSome = false →
      MultiAPI.getattr api st name
          = (st, Except.error (attributeError name))) ∧
    (∀ b : BoundCall, (MultiAPI.getattr api st name).2 = Except.ok b →
      ∃ f, api b.name = some f ∧
        runnerStep api ⟨b.name, a, k⟩ = dispatch f ⟨b.name, a, k⟩) := by
  constructor
  · intro h
    unfold MultiAPI.getattr
    simp [h]
  · intro b hb
    unfold MultiAPI.getattr at hb
    by_cases hs : (api name).isSome
    · simp [hs] at hb
      obtain ⟨f, hf⟩ := Option.isSome_iff_exists.mp hs
      subst hb
      exact ⟨f, hf, by unfold runnerStep; simp [hf]⟩
    · simp [hs] at hb

/-- Witness for C5 at concrete inputs: a name outside the sample API
fails locally; the exposed name read resolves and its worker step is the
dispatch of the resolved member. -/
theorem C5_unknown_operation_local_witness :
    MultiAPI.getattr apiW MultiAPI.init "reset"
        = (MultiAPI.init, Except.error (attributeError "reset")) ∧
    ∃ f, apiW "read" = some f ∧
      runnerStep apiW ⟨"read", [], []⟩ = dispatch f ⟨"read", [], []⟩ :=
  ⟨(C5_unknown_operation_local apiW MultiAPI.init "reset" [] []).1 rfl,
   (C5_unknown_operation_local apiW MultiAPI.init "read" [] []).2 ⟨"read"⟩ rfl⟩

/-- C8: the worker loop produces exactly one acknowledgement per dequeued
command, in order; on a raised error the acknowledgement carries the
error and its full diagnostic trace, on a normal return it carries the
result; and the loop continues past a failing command: its recursion on
the remaining commands does not depend on the outcome of the head. -/
theorem C8_worker_one_ack_per_command :
    (∀ (api : Api) (c : Command) (cs : List Command),
        MultiAPI.runner api (c :: cs)
            = runnerStep api c :: MultiAPI.runner api cs) ∧
    (∀ (api : Api) (cmds : List Command),
        (MultiAPI.runner api cmds).length = cmds.length) ∧
    (∀ (api : Api) (c : Command) (f : ApiFn) (e : PyExc),
        api c.cmd = some f → f c.args c.kwargs = Except.error e →
          runnerStep api c = CommandAck.mkError e (traceback.format_exc e)) ∧
    (∀ (api : Api) (c : Command) (f : ApiFn) (r : Option Value),
        api c.cmd = some f → f c.args c.kwargs = Except.ok r →
          runnerStep api c = CommandAck.mkResult r) := by
  refine ⟨fun api c cs => rfl, ?_, ?_, ?_⟩
  · intro api cmds
    rw [runner_eq_map]
    exact List.length_map cmds (runnerStep api)
  · intro api c f e hf he
    unfold runnerStep dispatch
    simp [hf, he]
  · intro api c f r hf he
    unfold runnerStep dispatch
    simp [hf, he]

/-- Witness for C8 at concrete inputs: the failing sample operation
yields the error acknowledgement with its trace, the succeeding one the
result acknowledgement. -/
theorem C8_worker_one_ack_per_command_witness :
    runnerStep apiW ⟨"divide", [], []⟩
        = CommandAck.mkError zde (traceback.format_exc zde) ∧
    runnerStep apiW ⟨"read", [], []⟩
        = CommandAck.mkResult (some (Value.vInt 42)) :=
  ⟨C8_worker_one_ack_per_command.2.2.1 apiW ⟨"divide", [], []⟩ divideFn zde rfl rfl,
   C8_worker_one_ack_per_command.2.2.2 apiW ⟨"read", [], []⟩ readFn
      (some (Value.vInt 42)) rfl rfl⟩

/-- C10: attribute access on the facade has no side effect: the state
(hence queue histories, lock and liveness flag) is returned exactly as it
was; for a name the Target API defines it yields the forwarding callable;
and only invoking that callable performs the serialized call, the
invocation being literally _execute with the captured name. -/
theorem C10_getattr_pure (api : Api) (st : MultiAPI) (name : String) :
    (MultiAPI.getattr api st name).1 = st ∧
    ((api name).isSome = true →
        (MultiAPI.getattr api st name).2 = Except.ok ⟨name⟩) ∧
    (∀ (b : BoundCall) (st2 : MultiAPI) (a : List Value)
        (k : List (String × Value)),
        (MultiAPI.getattr api st name).2 = Except.ok b →
          BoundCall.call api b st2 a k = MultiAPI.execute api st2 name a k) := by
  refine ⟨getattr_state api st name, ?_, ?_⟩
  · intro h
    unfold MultiAPI.getattr
    simp [h]
  · intro b st2 a k hb
    unfold MultiAPI.getattr at hb
    by_cases hs : (api name).isSome
    · simp [hs] at hb
      subst hb
      rfl
    · simp [hs] at hb

/-- Witness for C10 at a concrete input: accessing read on the fresh
facade changes nothing, returns the callable, and the callable invokes
_execute. -/
theorem C10_getattr_pure_witness :
    (MultiAPI.getattr apiW MultiAPI.init "read").1 = MultiAPI.init ∧
    (MultiAPI.getattr apiW MultiAPI.init "read").2 = Except.ok ⟨"read"⟩ ∧
    BoundCall.call apiW ⟨"read"⟩ MultiAPI.init [] []
        = MultiAPI.execute apiW MultiAPI.init "read" [] [] :=
  ⟨(C10_getattr_pure apiW MultiAPI.init "read").1,
   (C10_getattr_pure apiW MultiAPI.init "read").2.1 rfl,
   (C10_getattr_pure apiW MultiAPI.init "read").2.2 ⟨"read"⟩ MultiAPI.init [] [] rfl⟩

/-- A single thread submitting a sequence of requests through a live
facade with a free lock: the command history grows by exactly the
submitted envelopes in order, the acknowledgement history by their
worker outcomes in the same order, and the facade stays live with the
lock free. -/
lemma executeSeq_traces (api : Api) (rs : List Request) :
    ∀ st : MultiAPI, st.terminated = false → st.exec_lock.held = false →
      (MultiAPI.executeSeq api st rs).1.cmdTrace
          = st.cmdTrace ++ rs.map Request.toCommand ∧
      (MultiAPI.executeSeq api st rs).1.ackTrace
          = st.ackTrace ++ (rs.map Request.toCommand).map (runnerStep api) ∧
      (MultiAPI.executeSeq api st rs).1.terminated = false ∧
      (MultiAPI.executeSeq api st rs).1.exec_lock.held = false := by
  induction rs with
  | nil =>
      intro st h1 h2
      exact ⟨by simp [MultiAPI.executeSeq], by simp [MultiAPI.executeSeq],
             by simpa [MultiAPI.executeSeq] using h1,
             by simpa [MultiAPI.executeSeq] using h2⟩
  | cons r rest ih =>
      intro st h1 h2
      obtain ⟨hc, ha, ht, hl⟩ := execute_fields api st r.name r.args r.kwargs h1 h2
      obtain ⟨ihc, iha, iht, ihl⟩ :=
        ih (MultiAPI.execute api st r.name r.args r.kwargs).1 ht hl
      refine ⟨?_, ?_, ?_, ?_⟩
      · simp only [MultiAPI.executeSeq]
        rw [ihc, hc]
        simp [Request.toCommand]
      · simp only [MultiAPI.executeSeq]
        rw [iha, ha]
        simp [Request.toCommand]
      · simpa [MultiAPI.executeSeq] using iht
      · simpa [MultiAPI.executeSeq] using ihl

/-- C6: for every sequence of operations submitted through one facade
from a single thread starting at construction, the command envelopes are
enqueued in submission order, the acknowledgement envelopes are received
in exactly that order (one per command, matched purely by position in the
serialization, with one in-flight request at a time by construction of
executeSeq), and the received acknowledgements are exactly what the
worker loop produces on that command stream. -/
theorem C6_acks_in_submission_order (api : Api) (rs : List Request) :
    (MultiAPI.executeSeq api MultiAPI.init rs).1.cmdTrace
        = rs.map Request.toCommand ∧
    (MultiAPI.executeSeq api MultiAPI.init rs).1.ackTrace
        = ((MultiAPI.executeSeq api MultiAPI.init rs).1.cmdTrace).map
            (runnerStep api) ∧
    MultiAPI.runner api ((MultiAPI.executeSeq api MultiAPI.init rs).1.cmdTrace)
        = (MultiAPI.executeSeq api MultiAPI.init rs).1.ackTrace := by
  obtain ⟨hc, ha, h3, h4⟩ := executeSeq_traces api rs MultiAPI.init rfl rfl
  refine ⟨by simpa using hc, ?_, ?_⟩
  · rw [hc, ha]
    simp [MultiAPI.init]
  · rw [runner_eq_map, hc, ha]
    simp [MultiAPI.init]
